import Mathlib

/-!
Shallow embedding of the theme-lifecycle orchestrator `ViewportTheme` from
`src/index.js` (plugin name `viewport-sync`) and of its sibling variant in
`src/unnamed/part_000` (plugin name `gulp-viewport`).

The collaborators (HTTP transport, glob resolver, form-data builder) are modelled
as an oracle structure; every method returns, besides its result and the updated
instance state, the ordered list of collaborator calls it issued, so that
call-count and call-order properties can be stated.  Logging (`showLog`,
`console.log`) is not observable in the embedding: it carries no data back into
the computation.  JavaScript truthiness of the `themeId` field is modelled by an
explicit `JsVal` type with a `falsy` predicate.
-/

/-- JavaScript values that can inhabit the `themeId` field: `undefined` before
`create()` runs, afterwards whatever `fetchTheme` returned in its `id` field
(a number or a string on the wire). -/
inductive JsVal where
  | undef
  | num (n : Int)
  | str (s : String)
  deriving DecidableEq, Repr

/-- JavaScript falsiness restricted to `JsVal`: `undefined`, `0` and `""` are
falsy, everything else is truthy.  This is what `!this.themeId` tests. -/
def JsVal.falsy : JsVal → Bool
  | .undef => true
  | .num n => n == 0
  | .str s => s == ""

/-- Template-literal interpolation `${v}` of a `JsVal`. -/
def JsVal.render : JsVal → String
  | .undef => "undefined"
  | .num n => toString n
  | .str s => s

/-- The distinct `PluginError` throw sites of the orchestrator, keyed by the
spec's error taxonomy (§7). -/
inductive VPError where
  | missingThemeName
  | incompleteEnvironment
  | invalidConfigSchema
  | themeNotFound
  | themeNotInitialized
  | invalidArguments
  deriving DecidableEq, Repr

/-- The own-properties of a `ViewportTheme` instance: the five fields copied from
the validated target environment, plus `themeName`, `themeId` and the private
existence cache `#doesThemeExist` (`none` = JavaScript `undefined`). -/
structure ThemeState where
  envName : String
  confluenceBaseUrl : String
  username : String
  password : String
  scope : String
  themeName : String
  themeId : JsVal
  doesThemeExist : Option Bool
  deriving DecidableEq, Repr

/-- The theme descriptor returned by the remote lookup (`fetchTheme`); only its
`id` field is consumed by the orchestrator. -/
structure Theme where
  id : JsVal
  deriving DecidableEq, Repr

/-- Behaviour of the external collaborators, assumed to succeed (spec §6):
`existsTheme` answers the remote existence query, `fetchTheme` the remote
lookup, `resolveGlob` expands a glob pattern into an ordered path list and
`uploadTheme` returns the ordered list of accepted paths. -/
structure Collaborators where
  existsTheme : Bool
  fetchTheme : Theme
  resolveGlob : String → List String
  uploadTheme : List String

/-- One collaborator invocation, as recorded in a method's call trace. -/
inductive Call where
  | existsTheme
  | createTheme
  | fetchTheme
  | resetTheme
  | resolveGlob (globString : String)
  | createFormData (sourcePaths targetPaths : List String)
  | uploadTheme
  deriving DecidableEq, Repr

-- ----------------- URL helpers (src/index.js lines 47-50) ----------------- --

def RESTURL_BASE : String := "/rest/scroll-viewport/1.0"

def getRestUrlForThemeObject (baseUrl themeName scope : String) : String :=
  baseUrl ++ "/theme?name=" ++ themeName ++ "&scope=" ++ scope

def getRestUrlForThemeCreation (baseUrl : String) : String :=
  baseUrl ++ "/theme"

def getRestUrlForThemeResources (baseUrl : String) (themeId : JsVal) : String :=
  baseUrl ++ "/theme/" ++ themeId.render ++ "/resource"

-- ----------------- Node path model ----------------- --

/-- Split a character list on `/`, dropping empty segments; the first argument
accumulates the current segment in reverse. -/
def splitSegsAux : List Char → List Char → List String
  | acc, [] => if acc.isEmpty then [] else [String.mk acc.reverse]
  | acc, c :: rest =>
      if c == '/' then
        if acc.isEmpty then splitSegsAux [] rest
        else String.mk acc.reverse :: splitSegsAux [] rest
      else splitSegsAux (c :: acc) rest

/-- Split a POSIX path on `/`, dropping empty segments. -/
def splitPath (s : String) : List String := splitSegsAux [] s.toList

/-- Join segments with `/`. -/
def joinSegs : List String → String
  | [] => ""
  | [s] => s
  | s :: rest => s ++ "/" ++ joinSegs rest

/-- Normalisation of a relative path's segments as `path.join` performs it:
`.` disappears, `..` cancels the previous real segment and is kept when there
is nothing left to cancel.  First argument is the reversed accumulator. -/
def normSegs : List String → List String → List String
  | acc, [] => acc.reverse
  | acc, "." :: rest => normSegs acc rest
  | acc, ".." :: rest =>
      match acc with
      | [] => normSegs [".."] rest
      | ".." :: _ => normSegs (".." :: acc) rest
      | _ :: acc2 => normSegs acc2 rest
  | acc, seg :: rest => normSegs (seg :: acc) rest

/-- Normalisation of a resolved (absolute) path's segments: like `normSegs` but
`..` at the root disappears, as in `path.resolve`. -/
def resolvedSegs : List String → List String → List String
  | acc, [] => acc.reverse
  | acc, "." :: rest => resolvedSegs acc rest
  | acc, ".." :: rest =>
      match acc with
      | [] => resolvedSegs [] rest
      | _ :: acc2 => resolvedSegs acc2 rest
  | acc, seg :: rest => resolvedSegs (seg :: acc) rest

/-- Model of Node `path.join` for POSIX relative paths: concatenate the
segments, normalise, and fall back to `"."` when nothing remains. -/
def pathJoin (a b : String) : String :=
  let segs := normSegs [] (splitPath a ++ splitPath b)
  if segs.isEmpty then "." else joinSegs segs

/-- Drop the longest common segment prefix of two resolved paths, returning the
two remainders. -/
def dropCommon : List String → List String → List String × List String
  | a :: as, b :: bs => if a = b then dropCommon as bs else (a :: as, b :: bs)
  | as, bs => (as, bs)

/-- Model of Node `path.relative` for POSIX paths resolved against a common
working directory: after dropping the common prefix, climb out of what remains
of `fromPath` and descend into what remains of `toPath`. -/
def pathRelative (fromPath toPath : String) : String :=
  let p := dropCommon (resolvedSegs [] (splitPath fromPath)) (resolvedSegs [] (splitPath toPath))
  joinSegs (List.replicate p.1.length ".." ++ p.2)

/-- The target-path computation of `upload` (src/index.js line 214):
`sourcePaths.map(item => path.join(targetPath, path.relative(sourcePath, item)))`. -/
def computeTargetPaths (targetPath sourcePath : String) (sourcePaths : List String) : List String :=
  sourcePaths.map (fun item => pathJoin targetPath (pathRelative sourcePath item))

-- ----------------- Schema validation ----------------- --

/-- `\w` of the upload-path regexes. -/
def isWordChar (c : Char) : Bool :=
  ('a' ≤ c && c ≤ 'z') || ('A' ≤ c && c ≤ 'Z') || ('0' ≤ c && c ≤ '9') || c == '_'

/-- Matcher for `^(\w+\/)*$` over a character list; `n` counts the word
characters of the currently open segment. -/
def dirPatternAux : List Char → Nat → Bool
  | [], n => n == 0
  | c :: rest, n =>
      if c == '/' then n != 0 && dirPatternAux rest 0
      else if isWordChar c then dirPatternAux rest (n + 1)
      else false

/-- The `targetPath` / `sourcePath` pattern `^(\w+\/)*$` of `uplTemplate`. -/
def matchesDirPattern (s : String) : Bool := dirPatternAux s.toList 0

/-- Whitespace class `\s` of JavaScript regexes (the common members). -/
def jsWhitespace (c : Char) : Bool :=
  c == ' ' || c == '\t' || c == '\n' || c == '\r' || c == '\x0b' || c == '\x0c' || c == '\xa0'

/-- Tail of the URL pattern: `[^\s]*[^/]$` over what follows the first two
characters after the scheme — every character but the last is non-whitespace
and the last is not a slash. -/
def urlTailOk : List Char → Bool
  | [] => false
  | [c] => c != '/'
  | c :: rest => !jsWhitespace c && urlTailOk rest

/-- Body of the URL pattern after the scheme: `[^\s$.?#].[^\s]*[^/]$`. -/
def urlBodyOk : List Char → Bool
  | c0 :: c1 :: rest =>
      !(jsWhitespace c0 || c0 == '$' || c0 == '.' || c0 == '?' || c0 == '#')
        && c1 != '\n' && c1 != '\r' && urlTailOk rest
  | _ => false

/-- Case-insensitive literal match of `p` at the head of `l`, returning the
remainder. -/
def dropLitCI : List Char → List Char → Option (List Char)
  | [], l => some l
  | _ :: _, [] => none
  | p :: ps, c :: cs => if p.toLower == c.toLower then dropLitCI ps cs else none

/-- The `confluenceBaseUrl` pattern `^(https?):\/\/[^\s$.?#].[^\s]*[^/]$` with
the `i` flag. -/
def confluenceBaseUrlVal (s : String) : Bool :=
  match dropLitCI "https://".toList s.toList with
  | some rest => urlBodyOk rest
  | none =>
      match dropLitCI "http://".toList s.toList with
      | some rest => urlBodyOk rest
      | none => false

/-- Modelled from the spec: `regexVal` is defined in `src/lib/validate.js`,
which is not under `src/`.  Per spec §4.1 it returns true iff the candidate's
key set is set-equal to the schema's key set and every value satisfies its
field's predicate — no missing fields, no extra fields.  Candidates are
association lists standing for plain JavaScript objects. -/
def regexVal (schema : List (String × (String → Bool))) (cand : List (String × String)) : Bool :=
  (schema.all fun kv =>
    match cand.lookup kv.1 with
    | some v => kv.2 v
    | none => false)
  && (cand.all fun kv => schema.any fun sv => sv.1 == kv.1)

/-- `envTemplate` of src/index.js lines 25-31; `/.*/i` accepts every string. -/
def envTemplate : List (String × (String → Bool)) :=
  [("envName", fun _ => true),
   ("confluenceBaseUrl", confluenceBaseUrlVal),
   ("username", fun _ => true),
   ("password", fun _ => true),
   ("scope", fun _ => true)]

/-- `uplTemplate` of src/index.js lines 33-37. -/
def uplTemplate : List (String × (String → Bool)) :=
  [("targetPath", matchesDirPattern),
   ("sourcePath", matchesDirPattern),
   ("globString", fun _ => true)]

/-- `envVarNames` of src/index.js lines 39-45. -/
def envVarNames : List (String × String) :=
  [("envName", "VPRT_ENV"),
   ("confluenceBaseUrl", "VPRT_CONFLUENCEBASEURL"),
   ("username", "VPRT_USERNAME"),
   ("password", "VPRT_PASSWORD"),
   ("scope", "VPRT_SCOPE")]

/-- JavaScript truthiness of `process.env[name]`: present and non-empty. -/
def envVarTruthy (procEnv : String → Option String) (name : String) : Bool :=
  match procEnv name with
  | some v => v != ""
  | none => false

-- ----------------- Basic-auth encoding ----------------- --

/-- UTF-8 encoding of one character, as `Buffer.from(string)` produces it. -/
def utf8Bytes (c : Char) : List Nat :=
  let n := c.toNat
  if n < 0x80 then [n]
  else if n < 0x800 then [0xC0 + n / 64, 0x80 + n % 64]
  else if n < 0x10000 then [0xE0 + n / 4096, 0x80 + n / 64 % 64, 0x80 + n % 64]
  else [0xF0 + n / 0x40000, 0x80 + n / 4096 % 64, 0x80 + n / 64 % 64, 0x80 + n % 64]

/-- UTF-8 byte sequence of a string. -/
def stringBytes (s : String) : List Nat := (s.toList.map utf8Bytes).flatten

/-- The standard base64 alphabet. -/
def b64Alphabet : List Char :=
  "ABCDEFGHIJKLMNOPQRSTUVWXYZabcdefghijklmnopqrstuvwxyz0123456789+/".toList

def b64Char (n : Nat) : Char := b64Alphabet.getD n 'A'

/-- Base64 of a byte list with `=` padding, as `buffer.toString('base64')`. -/
def base64EncodeBytes : List Nat → List Char
  | [] => []
  | [a] => [b64Char (a / 4), b64Char (a % 4 * 16), '=', '=']
  | [a, b] => [b64Char (a / 4), b64Char (a % 4 * 16 + b / 16), b64Char (b % 16 * 4), '=']
  | a :: b :: c :: rest =>
      b64Char (a / 4) :: b64Char (a % 4 * 16 + b / 16) :: b64Char (b % 16 * 4 + c / 64) ::
        b64Char (c % 64) :: base64EncodeBytes rest

/-- `Buffer.from(s).toString('base64')`. -/
def base64EncodeString (s : String) : String :=
  String.mk (base64EncodeBytes (stringBytes s))

-- ----------------- ViewportTheme (src/index.js) ----------------- --

namespace ViewportTheme

def PLUGIN_NAME : String := "viewport-sync"

/-- Constructor branch taken when `envName` is omitted (src/index.js lines
61-110): `themeName` must be truthy; every configuration environment variable
must be truthy, else the constructor throws; the resulting target environment
must pass `regexVal` against `envTemplate`; its fields are copied onto the
instance, `themeId` starts undefined and the existence cache starts unknown. -/
def constructFromEnvVars (procEnv : String → Option String) (themeName : String) :
    Except VPError ThemeState :=
  if themeName == "" then Except.error VPError.missingThemeName
  else if envVarNames.all (fun kv => envVarTruthy procEnv kv.2) then
    let targetEnv := envVarNames.map (fun kv => (kv.1, (procEnv kv.2).getD ""))
    if regexVal envTemplate targetEnv then
      Except.ok
        { envName := (targetEnv.lookup "envName").getD ""
          confluenceBaseUrl := (targetEnv.lookup "confluenceBaseUrl").getD ""
          username := (targetEnv.lookup "username").getD ""
          password := (targetEnv.lookup "password").getD ""
          scope := (targetEnv.lookup "scope").getD ""
          themeName := themeName
          themeId := JsVal.undef
          doesThemeExist := none }
    else Except.error VPError.invalidConfigSchema
  else Except.error VPError.incompleteEnvironment

/-- Getter `autorisation` (src/index.js lines 114-116). -/
def autorisation (st : ThemeState) : String :=
  "Basic " ++ base64EncodeString (st.username ++ ":" ++ st.password)

/-- Getter `restUrlBase`. -/
def restUrlBase (st : ThemeState) : String :=
  st.confluenceBaseUrl ++ RESTURL_BASE

/-- Getter `restUrlForThemeObject`. -/
def restUrlForThemeObject (st : ThemeState) : String :=
  getRestUrlForThemeObject (restUrlBase st) st.themeName st.scope

/-- Getter `restUrlForThemeCreation`. -/
def restUrlForThemeCreation (st : ThemeState) : String :=
  getRestUrlForThemeCreation (restUrlBase st)

/-- Getter `restUrlForThemeResources` (src/index.js lines 131-137): throws
`ThemeNotInitialized` when `themeId` is falsy, else builds the resource URL. -/
def restUrlForThemeResources (st : ThemeState) : Except VPError String :=
  if st.themeId.falsy then Except.error VPError.themeNotInitialized
  else Except.ok (getRestUrlForThemeResources (restUrlBase st) st.themeId)

/-- Method `exists()` (src/index.js lines 143-153): on the first run queries the
transport and stores the answer in the private cache; afterwards answers from
the cache without a collaborator call. -/
def «exists» (co : Collaborators) (st : ThemeState) : Bool × ThemeState × List Call :=
  match st.doesThemeExist with
  | none =>
      let v := co.existsTheme
      (v, { st with doesThemeExist := some v }, [Call.existsTheme])
  | some v => (v, st, [])

/-- Method `create()` (src/index.js lines 156-171): checks existence, creates
remotely only when the theme does not exist, then unconditionally fetches the
theme and binds `themeId` to its `id` field. -/
def create (co : Collaborators) (st : ThemeState) : ThemeState × List Call :=
  let r := «exists» co st
  let creationCalls := if r.1 then ([] : List Call) else [Call.createTheme]
  ({ r.2.1 with themeId := co.fetchTheme.id }, r.2.2 ++ creationCalls ++ [Call.fetchTheme])

/-- Method `reset()` (src/index.js lines 174-187): throws `ThemeNotFound` when
the theme does not exist, else clears the remote resources.  Modelled from the
spec: the body of `resetTheme` (`src/lib/network.js`, not under `src/`)
addresses the resource-collection URL, so `restUrlForThemeResources`'s guard
runs before any network call. -/
def reset (co : Collaborators) (st : ThemeState) :
    Except VPError Unit × ThemeState × List Call :=
  let r := «exists» co st
  if !r.1 then (Except.error VPError.themeNotFound, r.2.1, r.2.2)
  else
    match restUrlForThemeResources r.2.1 with
    | Except.error e => (Except.error e, r.2.1, r.2.2)
    | Except.ok _ => (Except.ok (), r.2.1, r.2.2 ++ [Call.resetTheme])

/-- Method `upload(options)` (src/index.js lines 190-231): existence check,
argument validation against `uplTemplate`, glob resolution, successful early
return on an empty match, target-path computation, form-data construction and
remote upload.  Modelled from the spec: the body of `uploadTheme`
(`src/lib/network.js`, not under `src/`) addresses the resource-collection URL,
so `restUrlForThemeResources`'s guard runs after form-data construction and
before the network call. -/
def upload (co : Collaborators) (st : ThemeState) (options : List (String × String)) :
    Except VPError Unit × ThemeState × List Call :=
  let r := «exists» co st
  if !r.1 then (Except.error VPError.themeNotFound, r.2.1, r.2.2)
  else if !regexVal uplTemplate options then
    (Except.error VPError.invalidArguments, r.2.1, r.2.2)
  else
    let targetPath := (options.lookup "targetPath").getD ""
    let sourcePath := (options.lookup "sourcePath").getD ""
    let globString := (options.lookup "globString").getD ""
    let sourcePaths := co.resolveGlob globString
    let trace2 := r.2.2 ++ [Call.resolveGlob globString]
    if sourcePaths.isEmpty then (Except.ok (), r.2.1, trace2)
    else
      let targetPaths := computeTargetPaths targetPath sourcePath sourcePaths
      match restUrlForThemeResources r.2.1 with
      | Except.error e => (Except.error e, r.2.1, trace2 ++ [Call.createFormData sourcePaths targetPaths])
      | Except.ok _ =>
          (Except.ok (), r.2.1, trace2 ++ [Call.createFormData sourcePaths targetPaths, Call.uploadTheme])

end ViewportTheme

-- ----------------- ViewportTheme variant (src/unnamed/part_000) ----------------- --

namespace GulpViewportTheme

def PLUGIN_NAME : String := "gulp-viewport"

/-- Getter `restUrlForThemeResources` of src/unnamed/part_000 lines 101-107. -/
def restUrlForThemeResources (st : ThemeState) : Except VPError String :=
  if st.themeId.falsy then Except.error VPError.themeNotInitialized
  else Except.ok (getRestUrlForThemeResources (st.confluenceBaseUrl ++ RESTURL_BASE) st.themeId)

/-- Method `exists()` of src/unnamed/part_000 lines 113-123. -/
def «exists» (co : Collaborators) (st : ThemeState) : Bool × ThemeState × List Call :=
  match st.doesThemeExist with
  | none =>
      let v := co.existsTheme
      (v, { st with doesThemeExist := some v }, [Call.existsTheme])
  | some v => (v, st, [])

/-- Method `create()` of src/unnamed/part_000 lines 126-141. -/
def create (co : Collaborators) (st : ThemeState) : ThemeState × List Call :=
  let r := «exists» co st
  let creationCalls := if r.1 then ([] : List Call) else [Call.createTheme]
  ({ r.2.1 with themeId := co.fetchTheme.id }, r.2.2 ++ creationCalls ++ [Call.fetchTheme])

/-- Method `reset()` of src/unnamed/part_000 lines 144-157; the network body is
modelled from the spec exactly as in `ViewportTheme.reset`. -/
def reset (co : Collaborators) (st : ThemeState) :
    Except VPError Unit × ThemeState × List Call :=
  let r := «exists» co st
  if !r.1 then (Except.error VPError.themeNotFound, r.2.1, r.2.2)
  else
    match restUrlForThemeResources r.2.1 with
    | Except.error e => (Except.error e, r.2.1, r.2.2)
    | Except.ok _ => (Except.ok (), r.2.1, r.2.2 ++ [Call.resetTheme])

/-- Method `upload(args)` of src/unnamed/part_000 lines 160-197; the network
body is modelled from the spec exactly as in `ViewportTheme.upload`. -/
def upload (co : Collaborators) (st : ThemeState) (args : List (String × String)) :
    Except VPError Unit × ThemeState × List Call :=
  let r := «exists» co st
  if !r.1 then (Except.error VPError.themeNotFound, r.2.1, r.2.2)
  else if !regexVal uplTemplate args then
    (Except.error VPError.invalidArguments, r.2.1, r.2.2)
  else
    let targetPath := (args.lookup "targetPath").getD ""
    let sourcePath := (args.lookup "sourcePath").getD ""
    let globString := (args.lookup "globString").getD ""
    let sourcePaths := co.resolveGlob globString
    let trace2 := r.2.2 ++ [Call.resolveGlob globString]
    if sourcePaths.isEmpty then (Except.ok (), r.2.1, trace2)
    else
      let targetPaths := computeTargetPaths targetPath sourcePath sourcePaths
      match restUrlForThemeResources r.2.1 with
      | Except.error e => (Except.error e, r.2.1, trace2 ++ [Call.createFormData sourcePaths targetPaths])
      | Except.ok _ =>
          (Except.ok (), r.2.1, trace2 ++ [Call.createFormData sourcePaths targetPaths, Call.uploadTheme])

end GulpViewportTheme

-- ----------------- Concrete fixtures ----------------- --

/-- An instance state whose existence cache already holds `true`. -/
def stChecked : ThemeState :=
  { envName := "dev", confluenceBaseUrl := "http://example.com", username := "user",
    password := "pass", scope := "", themeName := "theme", themeId := JsVal.undef,
    doesThemeExist := some true }

/-- An instance state whose existence cache already holds `false`. -/
def stNotFound : ThemeState :=
  { stChecked with doesThemeExist := some false }

/-- A freshly constructed instance state: cache unknown, `themeId` undefined. -/
def stFresh : ThemeState :=
  { stChecked with doesThemeExist := none }

/-- `stChecked` after a lookup bound `themeId` to the number `0`. -/
def stZeroId : ThemeState :=
  { stChecked with themeId := JsVal.num 0 }

/-- Collaborators whose glob resolver matches two files. -/
def coStd : Collaborators :=
  { existsTheme := true, fetchTheme := { id := JsVal.str "42" },
    resolveGlob := fun _ => ["src/a.css", "src/sub/b.css"], uploadTheme := ["a.css"] }

/-- Collaborators whose glob resolver matches nothing. -/
def coEmptyGlob : Collaborators :=
  { existsTheme := true, fetchTheme := { id := JsVal.str "42" },
    resolveGlob := fun _ => [], uploadTheme := [] }

/-- Collaborators whose lookup reports the falsy identifier `0` and whose glob
resolver matches nothing. -/
def coZeroEmpty : Collaborators :=
  { existsTheme := true, fetchTheme := { id := JsVal.num 0 },
    resolveGlob := fun _ => [], uploadTheme := [] }

/-- Collaborators reporting a non-existing theme whose lookup nevertheless
returns the falsy identifier `0`, with a glob resolver matching one file. -/
def coZeroMissing : Collaborators :=
  { existsTheme := false, fetchTheme := { id := JsVal.num 0 },
    resolveGlob := fun _ => ["src/a.css"], uploadTheme := [] }

/-- A valid upload argument object. -/
def optsOk : List (String × String) :=
  [("targetPath", "dist/"), ("sourcePath", "src/"), ("globString", "src/**/*.css")]

/-- An upload argument object missing `globString`. -/
def optsMissingGlob : List (String × String) :=
  [("targetPath", "dist/"), ("sourcePath", "src/")]

/-- A process environment defining only one of the five configuration
variables. -/
def procPartial : String → Option String :=
  fun name => if name == "VPRT_ENV" then some "dev" else none

/-- A process environment defining all five configuration variables. -/
def procFull : String → Option String :=
  fun name =>
    (([("VPRT_ENV", "dev"), ("VPRT_CONFLUENCEBASEURL", "http://example.com"),
       ("VPRT_USERNAME", "user"), ("VPRT_PASSWORD", "pass"),
       ("VPRT_SCOPE", "scope")] : List (String × String)).lookup name)

-- ----------------- Theorems ----------------- --

/-- `reset` leaves the instance state exactly as the inner `exists()` call left
it. -/
theorem reset_state_eq (co : Collaborators) (st : ThemeState) :
    (ViewportTheme.reset co st).2.1 = (ViewportTheme.«exists» co st).2.1 := by
  simp only [ViewportTheme.reset]
  split
  · rfl
  · split <;> rfl

/-- `upload` leaves the instance state exactly as the inner `exists()` call left
it. -/
theorem upload_state_eq (co : Collaborators) (st : ThemeState)
    (options : List (String × String)) :
    (ViewportTheme.upload co st options).2.1 = (ViewportTheme.«exists» co st).2.1 := by
  simp only [ViewportTheme.upload]
  split
  · rfl
  · split
    · rfl
    · split
      · rfl
      · split <;> rfl

/-- C1: `exists()` called twice in sequence issues at most one remote existence
call; the first call on an undefined cache invokes the transport, stores the
answer and returns it; a call on a set cache returns the cached value with no
transport call; and no operation (`exists`, `create`, `reset`, `upload`) ever
resets a set cache. -/
theorem c1_exists_memoized_cache_stable (co co2 : Collaborators) (st : ThemeState)
    (options : List (String × String)) :
    ((ViewportTheme.«exists» co st).2.2 ++
        (ViewportTheme.«exists» co2 (ViewportTheme.«exists» co st).2.1).2.2).count Call.existsTheme ≤ 1
  ∧ (ViewportTheme.«exists» co2 (ViewportTheme.«exists» co st).2.1).1 = (ViewportTheme.«exists» co st).1
  ∧ (ViewportTheme.«exists» co2 (ViewportTheme.«exists» co st).2.1).2.2 = []
  ∧ (st.doesThemeExist = none →
        (ViewportTheme.«exists» co st).1 = co.existsTheme
      ∧ (ViewportTheme.«exists» co st).2.1.doesThemeExist = some co.existsTheme
      ∧ (ViewportTheme.«exists» co st).2.2 = [Call.existsTheme])
  ∧ (∀ b, st.doesThemeExist = some b →
        (ViewportTheme.«exists» co st).1 = b
      ∧ (ViewportTheme.«exists» co st).2.1.doesThemeExist = some b
      ∧ (ViewportTheme.«exists» co st).2.2 = []
      ∧ (ViewportTheme.create co st).1.doesThemeExist = some b
      ∧ (ViewportTheme.reset co st).2.1.doesThemeExist = some b
      ∧ (ViewportTheme.upload co st options).2.1.doesThemeExist = some b) := by
  cases hc : st.doesThemeExist with
  | none =>
      refine ⟨?_, ?_, ?_, ?_, ?_⟩ <;>
        simp [ViewportTheme.«exists», ViewportTheme.create, ViewportTheme.reset,
          ViewportTheme.upload, hc]
  | some b =>
      refine ⟨?_, ?_, ?_, ?_, ?_⟩ <;>
        simp [ViewportTheme.«exists», ViewportTheme.create, reset_state_eq,
          upload_state_eq, hc]

/-- Witness for C1 at concrete inputs: a fresh instance caches the transport's
answer, and an instance with a set cache keeps it across `upload`. -/
theorem c1_witness :
    (ViewportTheme.«exists» coStd stFresh).2.1.doesThemeExist = some true
  ∧ (ViewportTheme.upload coStd stChecked optsOk).2.1.doesThemeExist = some true := by
  constructor
  · exact ((c1_exists_memoized_cache_stable coStd coStd stFresh optsOk).2.2.2.1 rfl).2.1
  · exact ((c1_exists_memoized_cache_stable coStd coStd stChecked optsOk).2.2.2.2 true rfl).2.2.2.2.2

/-- C2: `create()` always binds `themeId` to the `id` field of the lookup
result; when the theme exists it performs no remote creation but still the
lookup; when it does not exist it performs the creation exactly once and then
the lookup exactly once, in that order. -/
theorem c2_create_branches (co : Collaborators) (st : ThemeState) :
    (ViewportTheme.create co st).1.themeId = co.fetchTheme.id
  ∧ ((ViewportTheme.«exists» co st).1 = true →
        (ViewportTheme.create co st).2 = (ViewportTheme.«exists» co st).2.2 ++ [Call.fetchTheme]
      ∧ (ViewportTheme.create co st).2.count Call.createTheme = 0
      ∧ (ViewportTheme.create co st).2.count Call.fetchTheme = 1)
  ∧ ((ViewportTheme.«exists» co st).1 = false →
        (ViewportTheme.create co st).2 =
          (ViewportTheme.«exists» co st).2.2 ++ [Call.createTheme, Call.fetchTheme]
      ∧ (ViewportTheme.create co st).2.count Call.createTheme = 1
      ∧ (ViewportTheme.create co st).2.count Call.fetchTheme = 1) := by
  cases hc : st.doesThemeExist with
  | none =>
      cases hx : co.existsTheme <;>
        simp [ViewportTheme.create, ViewportTheme.«exists», hc, hx, List.count_cons]
  | some b =>
      cases b <;>
        simp [ViewportTheme.create, ViewportTheme.«exists», hc, List.count_cons]

/-- Witness for C2 at concrete inputs: on an existing theme no creation call is
issued, on a missing theme exactly one is, and `themeId` ends bound to the
lookup's identifier in both cases. -/
theorem c2_witness :
    (ViewportTheme.create coStd stChecked).1.themeId = JsVal.str "42"
  ∧ (ViewportTheme.create coStd stChecked).2.count Call.createTheme = 0
  ∧ (ViewportTheme.create coStd stNotFound).2 = [Call.createTheme, Call.fetchTheme] := by
  refine ⟨(c2_create_branches coStd stChecked).1, ?_, ?_⟩
  · exact ((c2_create_branches coStd stChecked).2.1 rfl).2.1
  · exact ((c2_create_branches coStd stNotFound).2.2 rfl).1

/-- C3: `reset()` on a non-existing theme fails with the `ThemeNotFound` error
without a remote reset call; `reset()` on an existing theme whose `themeId` is
still undefined fails with the `ThemeNotInitialized` error of the
resource-collection URL accessor, again without a remote reset call. -/
theorem c3_reset_guards (co : Collaborators) (st : ThemeState) :
    ((ViewportTheme.«exists» co st).1 = false →
        (ViewportTheme.reset co st).1 = Except.error VPError.themeNotFound
      ∧ Call.resetTheme ∉ (ViewportTheme.reset co st).2.2)
  ∧ ((ViewportTheme.«exists» co st).1 = true → st.themeId = JsVal.undef →
        (ViewportTheme.reset co st).1 = Except.error VPError.themeNotInitialized
      ∧ Call.resetTheme ∉ (ViewportTheme.reset co st).2.2) := by
  constructor
  · intro hex
    cases hc : st.doesThemeExist with
    | none =>
        simp [ViewportTheme.«exists», hc] at hex
        simp [ViewportTheme.reset, ViewportTheme.«exists», hc, hex]
    | some b =>
        simp [ViewportTheme.«exists», hc] at hex
        subst hex
        simp [ViewportTheme.reset, ViewportTheme.«exists», hc]
  · intro hex hid
    cases hc : st.doesThemeExist with
    | none =>
        simp [ViewportTheme.«exists», hc] at hex
        simp [ViewportTheme.reset, ViewportTheme.«exists»,
          ViewportTheme.restUrlForThemeResources, JsVal.falsy, hc, hex, hid]
    | some b =>
        simp [ViewportTheme.«exists», hc] at hex
        subst hex
        simp [ViewportTheme.reset, ViewportTheme.«exists»,
          ViewportTheme.restUrlForThemeResources, JsVal.falsy, hc, hid]

/-- Witness for C3 at concrete inputs: a cached-false instance and a
cached-true instance with undefined `themeId`. -/
theorem c3_witness :
    ((ViewportTheme.reset coStd stNotFound).1 = Except.error VPError.themeNotFound
      ∧ Call.resetTheme ∉ (ViewportTheme.reset coStd stNotFound).2.2)
  ∧ ((ViewportTheme.reset coStd stChecked).1 = Except.error VPError.themeNotInitialized
      ∧ Call.resetTheme ∉ (ViewportTheme.reset coStd stChecked).2.2) :=
  ⟨(c3_reset_guards coStd stNotFound).1 rfl, (c3_reset_guards coStd stChecked).2 rfl rfl⟩

/-- C4: the target-path list has the length of the source-path list, its `i`-th
entry is the join of `targetPath` with the `i`-th source path taken relative to
`sourcePath` (order preserved, no deduplication or sorting), and on the spec's
example it yields `["dist/a.css", "dist/sub/b.css"]`. -/
theorem c4_path_remap (targetPath sourcePath : String) (sourcePaths : List String) :
    (computeTargetPaths targetPath sourcePath sourcePaths).length = sourcePaths.length
  ∧ (∀ i : Nat, (computeTargetPaths targetPath sourcePath sourcePaths)[i]? =
      (sourcePaths[i]?).map (fun item => pathJoin targetPath (pathRelative sourcePath item)))
  ∧ computeTargetPaths "dist/" "src/" ["src/a.css", "src/sub/b.css"]
      = ["dist/a.css", "dist/sub/b.css"] := by
  refine ⟨?_, ?_, by decide⟩
  · simp [computeTargetPaths]
  · intro i
    simp [computeTargetPaths, List.getElem?_map]

/-- The only collaborator `exists()` can ever invoke is the existence query. -/
theorem exists_trace_only (co : Collaborators) (st : ThemeState) (c : Call)
    (h : c ≠ Call.existsTheme) : c ∉ (ViewportTheme.«exists» co st).2.2 := by
  cases hc : st.doesThemeExist <;> simp [ViewportTheme.«exists», hc, h]

/-- C5: on an existing theme with a valid argument object, `upload()` whose glob
resolver matches nothing returns successfully and invokes neither the form-data
builder nor the upload transport. -/
theorem c5_upload_empty_glob (co : Collaborators) (st : ThemeState)
    (options : List (String × String))
    (hex : (ViewportTheme.«exists» co st).1 = true)
    (hval : regexVal uplTemplate options = true)
    (hglob : co.resolveGlob ((options.lookup "globString").getD "") = []) :
    (ViewportTheme.upload co st options).1 = Except.ok ()
  ∧ (∀ sp tp, Call.createFormData sp tp ∉ (ViewportTheme.upload co st options).2.2)
  ∧ Call.uploadTheme ∉ (ViewportTheme.upload co st options).2.2 := by
  refine ⟨?_, ?_, ?_⟩
  · simp [ViewportTheme.upload, hex, hval, hglob]
  · intro sp tp
    have hm := exists_trace_only co st (Call.createFormData sp tp) (by simp)
    simp [ViewportTheme.upload, hex, hval, hglob, List.mem_append, hm]
  · have hm := exists_trace_only co st Call.uploadTheme (by simp)
    simp [ViewportTheme.upload, hex, hval, hglob, List.mem_append, hm]

/-- Witness for C5 at concrete inputs. -/
theorem c5_witness :
    (ViewportTheme.upload coEmptyGlob stChecked optsOk).1 = Except.ok ()
  ∧ (∀ sp tp, Call.createFormData sp tp ∉ (ViewportTheme.upload coEmptyGlob stChecked optsOk).2.2)
  ∧ Call.uploadTheme ∉ (ViewportTheme.upload coEmptyGlob stChecked optsOk).2.2 :=
  c5_upload_empty_glob coEmptyGlob stChecked optsOk rfl (by decide) rfl

/-- C6: on an existing theme, `upload()` with an argument object that fails the
`uplTemplate` validation fails with the `InvalidArguments` error before any glob
resolution; on a non-existing theme the error is `ThemeNotFound` regardless of
the arguments, the existence check coming first. -/
theorem c6_upload_arg_validation (co : Collaborators) (st : ThemeState)
    (options : List (String × String)) :
    ((ViewportTheme.«exists» co st).1 = true → regexVal uplTemplate options = false →
        (ViewportTheme.upload co st options).1 = Except.error VPError.invalidArguments
      ∧ (∀ g, Call.resolveGlob g ∉ (ViewportTheme.upload co st options).2.2))
  ∧ ((ViewportTheme.«exists» co st).1 = false →
        (ViewportTheme.upload co st options).1 = Except.error VPError.themeNotFound
      ∧ (∀ g, Call.resolveGlob g ∉ (ViewportTheme.upload co st options).2.2)) := by
  constructor
  · intro hex hval
    refine ⟨?_, ?_⟩
    · simp [ViewportTheme.upload, hex, hval]
    · intro g
      have hm := exists_trace_only co st (Call.resolveGlob g) (by simp)
      simp [ViewportTheme.upload, hex, hval, hm]
  · intro hex
    refine ⟨?_, ?_⟩
    · simp [ViewportTheme.upload, hex]
    · intro g
      have hm := exists_trace_only co st (Call.resolveGlob g) (by simp)
      simp [ViewportTheme.upload, hex, hm]

/-- Witness for C6 at concrete inputs: an argument object missing `globString`
on an existing theme, and the same object on a non-existing theme. -/
theorem c6_witness :
    (ViewportTheme.upload coStd stChecked optsMissingGlob).1
      = Except.error VPError.invalidArguments
  ∧ (∀ g, Call.resolveGlob g ∉ (ViewportTheme.upload coStd stChecked optsMissingGlob).2.2)
  ∧ (ViewportTheme.upload coStd stNotFound optsOk).1 = Except.error VPError.themeNotFound :=
  ⟨((c6_upload_arg_validation coStd stChecked optsMissingGlob).1 rfl (by decide)).1,
   ((c6_upload_arg_validation coStd stChecked optsMissingGlob).1 rfl (by decide)).2,
   ((c6_upload_arg_validation coStd stNotFound optsOk).2 rfl).1⟩

/-- C7: constructed without an environment name, a `ViewportTheme` succeeds only
when every one of the five configuration environment variables is present and
non-empty; whenever that fails — in particular for any proper subset — the
constructor throws the incomplete-environment error, never silently accepting a
partial configuration. -/
theorem c7_env_vars_all_or_nothing (procEnv : String → Option String) (themeName : String)
    (htn : themeName ≠ "") :
    (∀ st, ViewportTheme.constructFromEnvVars procEnv themeName = Except.ok st →
        envVarNames.all (fun kv => envVarTruthy procEnv kv.2) = true)
  ∧ (envVarNames.all (fun kv => envVarTruthy procEnv kv.2) = false →
        ViewportTheme.constructFromEnvVars procEnv themeName
          = Except.error VPError.incompleteEnvironment) := by
  have htn2 : (themeName == "") = false := by simp [htn]
  constructor
  · intro st hok
    cases hall : envVarNames.all (fun kv => envVarTruthy procEnv kv.2) with
    | true => rfl
    | false =>
        rw [ViewportTheme.constructFromEnvVars] at hok
        simp [htn2, hall] at hok
  · intro hfalse
    rw [ViewportTheme.constructFromEnvVars]
    simp [htn2, hfalse]

/-- Witness for C7 at concrete inputs: a single present variable yields the
incomplete-environment error, while a complete environment passes the
all-present check and constructs successfully. -/
theorem c7_witness :
    ViewportTheme.constructFromEnvVars procPartial "theme"
      = Except.error VPError.incompleteEnvironment
  ∧ envVarNames.all (fun kv => envVarTruthy procFull kv.2) = true :=
  ⟨(c7_env_vars_all_or_nothing procPartial "theme" (by decide)).2 (by decide),
   (c7_env_vars_all_or_nothing procFull "theme" (by decide)).1 _ rfl⟩

/-- C8: the `autorisation` getter returns `'Basic '` followed by the base64
encoding of `username ++ ':' ++ password`, and it reads nothing but those two
fields: two states agreeing on them yield the same value. -/
theorem c8_autorisation_pure (st st2 : ThemeState)
    (hu : st.username = st2.username) (hp : st.password = st2.password) :
    ViewportTheme.autorisation st
      = "Basic " ++ base64EncodeString (st.username ++ ":" ++ st.password)
  ∧ ViewportTheme.autorisation st = ViewportTheme.autorisation st2 :=
  ⟨rfl, by simp [ViewportTheme.autorisation, hu, hp]⟩

/-- Witness for C8 at concrete inputs: the credentials `user:pass` yield the
standard basic-auth value, and a state differing only in the other fields
yields the same value. -/
theorem c8_witness :
    ViewportTheme.autorisation stChecked = "Basic dXNlcjpwYXNz"
  ∧ ViewportTheme.autorisation stChecked = ViewportTheme.autorisation stNotFound := by
  have h := c8_autorisation_pure stChecked stNotFound rfl rfl
  exact ⟨by rw [h.1]; decide, h.2⟩

/-- C9: the two `ViewportTheme` variants agree method-for-method: for every
collaborator behaviour, instance state and argument object, `exists`, `create`,
`reset` and `upload` (and the resource-URL accessor they share) return the same
result, the same updated state and the same collaborator-call sequence. -/
theorem c9_variants_equivalent (co : Collaborators) (st : ThemeState)
    (args : List (String × String)) :
    GulpViewportTheme.«exists» co st = ViewportTheme.«exists» co st
  ∧ GulpViewportTheme.create co st = ViewportTheme.create co st
  ∧ GulpViewportTheme.reset co st = ViewportTheme.reset co st
  ∧ GulpViewportTheme.upload co st args = ViewportTheme.upload co st args
  ∧ GulpViewportTheme.restUrlForThemeResources st = ViewportTheme.restUrlForThemeResources st :=
  ⟨rfl, rfl, rfl, rfl, rfl⟩

/-- Counterexample to C10 as stated: with `themeId` bound to the falsy
identifier `0` by a successfully completed `create()`, not every subsequent
`reset()` and `upload()` fails with `ThemeNotInitialized`.  Three divergences on
concrete inputs: (a) on an existing theme, an `upload()` whose glob matches no
files returns successfully; (b) after `create()` on a non-existing theme — which
completes and binds `themeId = 0` but leaves the existence cache `false` —
`reset()` and a validated, file-matching `upload()` fail with `ThemeNotFound`,
not `ThemeNotInitialized`; (c) on an existing theme, an `upload()` whose
argument object fails validation fails with `InvalidArguments`, not
`ThemeNotInitialized`. -/
theorem c10_counterexample :
    (ViewportTheme.create coZeroEmpty stFresh).1.themeId = JsVal.num 0
  ∧ (ViewportTheme.create coZeroEmpty stFresh).1.doesThemeExist = some true
  ∧ (ViewportTheme.upload coZeroEmpty (ViewportTheme.create coZeroEmpty stFresh).1 optsOk).1
      = Except.ok ()
  ∧ (ViewportTheme.create coZeroMissing stFresh).1.themeId = JsVal.num 0
  ∧ (ViewportTheme.create coZeroMissing stFresh).1.doesThemeExist = some false
  ∧ (ViewportTheme.reset coZeroMissing (ViewportTheme.create coZeroMissing stFresh).1).1
      = Except.error VPError.themeNotFound
  ∧ (ViewportTheme.upload coZeroMissing (ViewportTheme.create coZeroMissing stFresh).1 optsOk).1
      = Except.error VPError.themeNotFound
  ∧ (ViewportTheme.upload coStd stZeroId optsMissingGlob).1
      = Except.error VPError.invalidArguments :=
  ⟨rfl, rfl, rfl, rfl, rfl, rfl, rfl, rfl⟩

/-- C10 (amended): the resource-collection URL accessor raises
`ThemeNotInitialized` for every falsy `themeId` (`undefined`, `0`, `""`).  If
the remote lookup binds `themeId` to `0` or to the empty string, then even
though `create()` completed successfully: every subsequent `reset()` whose
existence check passes fails with `ThemeNotInitialized` without a remote reset
call, and every subsequent `upload()` whose existence check passes, whose
argument object passes validation and whose glob matches at least one file
fails with `ThemeNotInitialized` without an upload-transport call; an
`upload()` whose existence check and validation pass but whose glob matches no
files returns successfully.  (Each qualifier is forced by the counterexample:
without it the operation fails with `ThemeNotFound` or `InvalidArguments`, or
succeeds, instead.) -/
theorem c10_falsy_themeId_guard (co : Collaborators) (st : ThemeState)
    (options : List (String × String)) (hid : st.themeId.falsy = true) :
    ViewportTheme.restUrlForThemeResources st = Except.error VPError.themeNotInitialized
  ∧ ((ViewportTheme.«exists» co st).1 = true →
        (ViewportTheme.reset co st).1 = Except.error VPError.themeNotInitialized
      ∧ Call.resetTheme ∉ (ViewportTheme.reset co st).2.2)
  ∧ ((ViewportTheme.«exists» co st).1 = true → regexVal uplTemplate options = true →
        co.resolveGlob ((options.lookup "globString").getD "") ≠ [] →
        (ViewportTheme.upload co st options).1 = Except.error VPError.themeNotInitialized
      ∧ Call.uploadTheme ∉ (ViewportTheme.upload co st options).2.2)
  ∧ ((ViewportTheme.«exists» co st).1 = true → regexVal uplTemplate options = true →
        co.resolveGlob ((options.lookup "globString").getD "") = [] →
        (ViewportTheme.upload co st options).1 = Except.ok ()) := by
  refine ⟨by simp [ViewportTheme.restUrlForThemeResources, hid], ?_, ?_, ?_⟩
  · intro hex
    cases hc : st.doesThemeExist with
    | none =>
        simp [ViewportTheme.«exists», hc] at hex
        simp [ViewportTheme.reset, ViewportTheme.«exists»,
          ViewportTheme.restUrlForThemeResources, hc, hex, hid]
    | some b =>
        simp [ViewportTheme.«exists», hc] at hex
        subst hex
        simp [ViewportTheme.reset, ViewportTheme.«exists»,
          ViewportTheme.restUrlForThemeResources, hc, hid]
  · intro hex hval hne
    have hm := exists_trace_only co st Call.uploadTheme (by simp)
    cases hg : co.resolveGlob ((options.lookup "globString").getD "") with
    | nil => exact absurd hg hne
    | cons p ps =>
        cases hc : st.doesThemeExist with
        | none =>
            simp [ViewportTheme.«exists», hc] at hex
            constructor
            · simp [ViewportTheme.upload, ViewportTheme.«exists»,
                ViewportTheme.restUrlForThemeResources, hc, hex, hval, hg, hid]
            · simp [ViewportTheme.upload, ViewportTheme.«exists»,
                ViewportTheme.restUrlForThemeResources, hc, hex, hval, hg, hid]
        | some b =>
            simp [ViewportTheme.«exists», hc] at hex
            subst hex
            constructor
            · simp [ViewportTheme.upload, ViewportTheme.«exists»,
                ViewportTheme.restUrlForThemeResources, hc, hval, hg, hid]
            · simp [ViewportTheme.upload, ViewportTheme.«exists»,
                ViewportTheme.restUrlForThemeResources, hc, hval, hg, hid]
  · intro hex hval hg
    simp [ViewportTheme.upload, hex, hval, hg]

/-- Witness for the amended C10 at concrete inputs: `themeId = 0` after a
successful `create()`, a cached-true existence check, a valid argument object
and a glob matching two files. -/
theorem c10_witness :
    ViewportTheme.restUrlForThemeResources stZeroId = Except.error VPError.themeNotInitialized
  ∧ (ViewportTheme.reset coStd stZeroId).1 = Except.error VPError.themeNotInitialized
  ∧ (ViewportTheme.upload coStd stZeroId optsOk).1 = Except.error VPError.themeNotInitialized := by
  have h := c10_falsy_themeId_guard coStd stZeroId optsOk (by decide)
  exact ⟨h.1, (h.2.1 rfl).1, (h.2.2.1 rfl (by decide) (by decide)).1⟩
